import Mathlib

/-!
Shallow embedding of the escrow core of `bip70-multisign-demo` (Go).

The embedding follows the source files:
  * `src/escrow/escrow.go`   — handlers `CreateEscrow`, `ReleaseEscrow`,
    `RefundEscrow`, `VerifyPayment` (their per-record decision cores);
  * `src/unnamed/part_005` (package `utils`) — `VerifyTransaction` with the
    64-hex-character format check and the `knownTransactions` set, and the
    mock `CreateTransaction`.  The repository also carries an older
    `src/utils/bitcoin.go` whose `VerifyTransaction` returns `true` for any
    non-empty id; the caller in `escrow.go` matches on a "not found" error
    message that only the `part_005` version produces, so that version is
    the operative collaborator and is the one embedded here.

Go `time.Time` values are modelled as `Int` timestamps in seconds; a single
logical instant `now` stands for the (nanosecond-apart) `time.Now()` calls
inside one handler.  Go byte-length of the all-ASCII transaction ids
coincides with `String.length`.  HTTP method / JSON decoding guards are
transport concerns outside the embedded cores.
-/

namespace EscrowService

/-- PartySignature mirrors `escrow.PartySignature` (escrow.go lines 49-55). -/
structure PartySignature where
  party : String
  signature : String
  timestamp : Int
  publicKey : String
deriving Repr, DecidableEq

/-- PaymentRequest mirrors `utils.PaymentRequest` (bitcoin.go lines 18-28). -/
structure PaymentRequest where
  address : String
  amount : Int
  memo : String
  expires : Int
  paymentURL : String
  merchantID : String
  requestID : String
  callbackURL : String
deriving Repr, DecidableEq

/-- Escrow mirrors `escrow.Escrow` (escrow.go lines 57-75). -/
structure Escrow where
  id : String
  buyerPubKey : String
  sellerPubKey : String
  escrowPubKey : String
  multiSigAddress : String
  amount : Int
  description : String
  status : String
  paymentRequest : PaymentRequest
  createdAt : Int
  expiresAt : Int
  paymentTxID : String
  releaseTxID : String
  refundTxID : String
  releaseSignatures : List PartySignature
  refundSignatures : List PartySignature
deriving Repr, DecidableEq

/-- EscrowRequest mirrors `escrow.EscrowRequest` (escrow.go lines 21-29). -/
structure EscrowRequest where
  buyerPubKey : String
  sellerPubKey : String
  escrowPubKey : String
  amount : Int
  description : String
  expiryHours : Int
deriving Repr, DecidableEq

/-- ReleaseRequest mirrors `escrow.ReleaseRequest` (escrow.go lines 31-38). -/
structure ReleaseRequest where
  escrowID : String
  privateKey : String
  signature : String
  party : String
  publicKey : String
deriving Repr, DecidableEq

/-- RefundRequest mirrors `escrow.RefundRequest` (escrow.go lines 40-47). -/
structure RefundRequest where
  escrowID : String
  privateKey : String
  signature : String
  party : String
  publicKey : String
deriving Repr, DecidableEq

/-- Transaction mirrors `utils.Transaction` (bitcoin.go lines 30-36). -/
structure Transaction where
  txID : String
  rawTx : String
  fee : Int
  confirmations : Int
deriving Repr, DecidableEq

/-- Typed error kinds of §7; each constructor corresponds to one
`WriteErrorResponse` site of the Go handlers. -/
inductive EscrowError where
  | missingFields
  | invalidAmount
  | invalidParty
  | escrowNotFound
  | invalidStatus (current : String) (required : String)
  | duplicateSignature (party : String)
  | alreadyFunded
  | collaboratorError (msg : String)
  | verificationFailed (msg : String)
  | invalidTransaction
deriving Repr, DecidableEq

/-- CreateTransaction mirrors `utils.CreateTransaction` (part_005 lines
258-272, identical in bitcoin.go lines 114-128): the mock always succeeds
and returns txid `tx-<nanosecond timestamp>` with a fixed fee of 1000. -/
def CreateTransaction (fromAddress toAddress : String) (amount : Int)
    (privateKey : String) (now : Int) : Except String Transaction :=
  Except.ok { txID := "tx-" ++ toString now, rawTx := "01000000...",
              fee := 1000, confirmations := 0 }

/-- isHexChar mirrors the rune test in `utils.VerifyTransaction`
(part_005 lines 293-297). -/
def isHexChar (c : Char) : Bool :=
  ('0' ≤ c && c ≤ '9') || ('a' ≤ c && c ≤ 'f') || ('A' ≤ c && c ≤ 'F')

/-- knownTransactions mirrors the `knownTransactions` map of part_005
lines 274-279: the mock known-settled transaction set. -/
def knownTransactions (txID : String) : Option Bool :=
  if txID = "26dd4663518b3e24872fd5635fd889a8a0e1c232b8d488868ac378a0a2d28fb1" then
    some true
  else if txID = "3a4b5c6d7e8f9a0b1c2d3e4f5a6b7c8d9e0f1a2b3c4d5e6f7a8b9c0d1e2f3a4b" then
    some true
  else none

/-- VerifyTransaction mirrors `utils.VerifyTransaction` (part_005 lines
281-308): empty check, 64-character check, hexadecimal rune check, then
membership in the known-settled set. -/
def VerifyTransaction (txID : String) : Except String Bool :=
  if txID = "" then
    Except.error "transaction ID is empty"
  else if txID.length ≠ 64 then
    Except.error "invalid transaction ID format: must be 64 characters"
  else if txID.data.all isHexChar = false then
    Except.error "invalid transaction ID format: must contain only hexadecimal characters"
  else
    match knownTransactions txID with
    | none => Except.error "transaction not found in the blockchain"
    | some isValid => Except.ok isValid

/-- CreateBIP70PaymentRequest mirrors `utils.CreateBIP70PaymentRequest`
(bitcoin.go lines 90-112).  The address validation is delegated to the
external `btcutil.DecodeAddress`; its success is the parameter
`decodeOk`. -/
def CreateBIP70PaymentRequest (address : String) (amount : Int)
    (decodeOk : Bool) (now : Int) : Except String PaymentRequest :=
  if decodeOk = false then
    Except.error "invalid address"
  else
    let requestID := "req-" ++ toString now
    Except.ok { address := address, amount := amount, memo := "Escrow payment",
                expires := now + 3600,
                paymentURL := "http://localhost:8080/pay/" ++ requestID,
                merchantID := "EscrowService",
                requestID := requestID,
                callbackURL := "http://localhost:8080/callback/" ++ requestID }

/-- createEscrowCore is the decision core of `escrow.CreateEscrow`
(escrow.go lines 90-135): field validation, amount validation, multisig
derivation (external collaborator, passed in as `multiSigResult`), BIP70
payment request, expiry defaulting, record construction. -/
def createEscrowCore (req : EscrowRequest) (multiSigResult : Except String String)
    (decodeOk : Bool) (now : Int) : Except EscrowError Escrow :=
  if req.buyerPubKey = "" ∨ req.sellerPubKey = "" ∨ req.escrowPubKey = "" then
    Except.error EscrowError.missingFields
  else if req.amount ≤ 0 then
    Except.error EscrowError.invalidAmount
  else
    match multiSigResult with
    | Except.error msg => Except.error (EscrowError.collaboratorError msg)
    | Except.ok multiSigAddress =>
      match CreateBIP70PaymentRequest multiSigAddress req.amount decodeOk now with
      | Except.error msg => Except.error (EscrowError.collaboratorError msg)
      | Except.ok paymentRequest =>
        let expiryHours : Int := if req.expiryHours > 0 then req.expiryHours else 24
        Except.ok { id := "escrow-" ++ toString now,
                    buyerPubKey := req.buyerPubKey,
                    sellerPubKey := req.sellerPubKey,
                    escrowPubKey := req.escrowPubKey,
                    multiSigAddress := multiSigAddress,
                    amount := req.amount,
                    description := req.description,
                    status := "created",
                    paymentRequest := paymentRequest,
                    createdAt := now,
                    expiresAt := now + expiryHours * 3600,
                    paymentTxID := "",
                    releaseTxID := "",
                    refundTxID := "",
                    releaseSignatures := [],
                    refundSignatures := [] }

/-- createEscrowHandler adds the store insertion of escrow.go lines
137-140 on top of `createEscrowCore`; the store is an association list
with most-recent-first lookup semantics, standing for the Go map. -/
def createEscrowHandler (req : EscrowRequest) (multiSigResult : Except String String)
    (decodeOk : Bool) (now : Int) (store : List (String × Escrow)) :
    Except EscrowError Escrow × List (String × Escrow) :=
  match createEscrowCore req multiSigResult decodeOk now with
  | Except.error e => (Except.error e, store)
  | Except.ok r => (Except.ok r, (r.id, r) :: store)

/-- SettlementCall records the arguments the handler passes to
`utils.CreateTransaction` at threshold. -/
structure SettlementCall where
  fromAddress : String
  toAddress : String
  amount : Int
  privateKey : String
deriving Repr, DecidableEq

/-- releaseEscrowCore is the per-record decision core of
`escrow.ReleaseEscrow` (escrow.go lines 159-267): field validation, party
validation, status guard, duplicate-party guard, signature append,
threshold check and mock settlement.  Errors carry the record as it stands
when the error is returned (the Go handler mutates the shared record
through a pointer, so a post-append failure would leave the append
visible). -/
def releaseEscrowCore (req : ReleaseRequest) (escrow : Escrow) (now : Int) :
    Except (EscrowError × Escrow) (Escrow × Option SettlementCall) :=
  if req.escrowID = "" ∨ req.privateKey = "" ∨ req.signature = "" ∨
      req.party = "" ∨ req.publicKey = "" then
    Except.error (EscrowError.missingFields, escrow)
  else if req.party ≠ "buyer" ∧ req.party ≠ "seller" ∧ req.party ≠ "escrow" then
    Except.error (EscrowError.invalidParty, escrow)
  else if escrow.status ≠ "funded" ∧ escrow.status ≠ "releasing" then
    Except.error (EscrowError.invalidStatus escrow.status "funded or releasing", escrow)
  else if escrow.releaseSignatures.any (fun s => s.party == req.party) then
    Except.error (EscrowError.duplicateSignature req.party, escrow)
  else
    let newSignature : PartySignature :=
      { party := req.party, signature := req.signature,
        timestamp := now, publicKey := req.publicKey }
    let sigs := escrow.releaseSignatures ++ [newSignature]
    let escrow1 := { escrow with releaseSignatures := sigs }
    if sigs.length ≥ 2 then
      let call : SettlementCall :=
        { fromAddress := escrow.multiSigAddress, toAddress := escrow.sellerPubKey,
          amount := escrow.amount - 1000, privateKey := req.privateKey }
      match CreateTransaction call.fromAddress call.toAddress call.amount
          call.privateKey now with
      | Except.error msg => Except.error (EscrowError.collaboratorError msg, escrow1)
      | Except.ok tx =>
        Except.ok ({ escrow1 with status := "released", releaseTxID := tx.txID }, some call)
    else
      Except.ok ({ escrow1 with status := "releasing" }, none)

/-- refundEscrowCore is the per-record decision core of
`escrow.RefundEscrow` (escrow.go lines 283-378), symmetric to release with
the refund sequence, the buyer key as payout target and statuses
`refunding` / `refunded`. -/
def refundEscrowCore (req : RefundRequest) (escrow : Escrow) (now : Int) :
    Except (EscrowError × Escrow) (Escrow × Option SettlementCall) :=
  if req.escrowID = "" ∨ req.privateKey = "" ∨ req.signature = "" ∨
      req.party = "" ∨ req.publicKey = "" then
    Except.error (EscrowError.missingFields, escrow)
  else if req.party ≠ "buyer" ∧ req.party ≠ "seller" ∧ req.party ≠ "escrow" then
    Except.error (EscrowError.invalidParty, escrow)
  else if escrow.status ≠ "funded" ∧ escrow.status ≠ "refunding" then
    Except.error (EscrowError.invalidStatus escrow.status "funded or refunding", escrow)
  else if escrow.refundSignatures.any (fun s => s.party == req.party) then
    Except.error (EscrowError.duplicateSignature req.party, escrow)
  else
    let newSignature : PartySignature :=
      { party := req.party, signature := req.signature,
        timestamp := now, publicKey := req.publicKey }
    let sigs := escrow.refundSignatures ++ [newSignature]
    let escrow1 := { escrow with refundSignatures := sigs }
    if sigs.length ≥ 2 then
      let call : SettlementCall :=
        { fromAddress := escrow.multiSigAddress, toAddress := escrow.buyerPubKey,
          amount := escrow.amount - 1000, privateKey := req.privateKey }
      match CreateTransaction call.fromAddress call.toAddress call.amount
          call.privateKey now with
      | Except.error msg => Except.error (EscrowError.collaboratorError msg, escrow1)
      | Except.ok tx =>
        Except.ok ({ escrow1 with status := "refunded", refundTxID := tx.txID }, some call)
    else
      Except.ok ({ escrow1 with status := "refunding" }, none)

/-- verifyPaymentCore is the per-record decision core of
`escrow.VerifyPayment` (escrow.go lines 398-445): field validation, the
already-funded guard (the only status guard present), transaction
verification, then the transition to `funded`. -/
def verifyPaymentCore (escrowID txID : String) (escrow : Escrow) :
    Except (EscrowError × Escrow) Escrow :=
  if escrowID = "" ∨ txID = "" then
    Except.error (EscrowError.missingFields, escrow)
  else if escrow.status = "funded" then
    Except.error (EscrowError.alreadyFunded, escrow)
  else
    match VerifyTransaction txID with
    | Except.error msg => Except.error (EscrowError.verificationFailed msg, escrow)
    | Except.ok false => Except.error (EscrowError.invalidTransaction, escrow)
    | Except.ok true =>
      Except.ok { escrow with status := "funded", paymentTxID := txID }

/-- EscrowStep relates a record to its successor under one invocation of
any of the three mutating handlers, on the success or the error path. -/
inductive EscrowStep : Escrow → Escrow → Prop where
  | verifyOk (escrowID txID : String) (e e' : Escrow) :
      verifyPaymentCore escrowID txID e = Except.ok e' → EscrowStep e e'
  | verifyErr (escrowID txID : String) (e e' : Escrow) (err : EscrowError) :
      verifyPaymentCore escrowID txID e = Except.error (err, e') → EscrowStep e e'
  | releaseOk (req : ReleaseRequest) (now : Int) (e e' : Escrow) (c : Option SettlementCall) :
      releaseEscrowCore req e now = Except.ok (e', c) → EscrowStep e e'
  | releaseErr (req : ReleaseRequest) (now : Int) (e e' : Escrow) (err : EscrowError) :
      releaseEscrowCore req e now = Except.error (err, e') → EscrowStep e e'
  | refundOk (req : RefundRequest) (now : Int) (e e' : Escrow) (c : Option SettlementCall) :
      refundEscrowCore req e now = Except.ok (e', c) → EscrowStep e e'
  | refundErr (req : RefundRequest) (now : Int) (e e' : Escrow) (err : EscrowError) :
      refundEscrowCore req e now = Except.error (err, e') → EscrowStep e e'

/-- Reachable records: produced by `CreateEscrow` and then transformed by
any sequence of handler invocations. -/
inductive Reachable : Escrow → Prop where
  | created (req : EscrowRequest) (msr : Except String String) (dok : Bool)
      (now : Int) (e : Escrow) :
      createEscrowCore req msr dok now = Except.ok e → Reachable e
  | step (e e' : Escrow) : Reachable e → EscrowStep e e' → Reachable e'

/-- sameCore states that two record states agree on the immutable
identity fields: id, the three party keys and the amount. -/
def sameCore (a b : Escrow) : Prop :=
  a.id = b.id ∧ a.buyerPubKey = b.buyerPubKey ∧ a.sellerPubKey = b.sellerPubKey ∧
  a.escrowPubKey = b.escrowPubKey ∧ a.amount = b.amount

/-- partiesOf lists the party roles of a signature sequence. -/
def partiesOf (l : List PartySignature) : List String :=
  l.map PartySignature.party

/-- Mock settlement txids are never empty. -/
theorem txMockNonempty (s : String) : ("tx-" ++ s) ≠ "" := by
  intro h
  have h2 : ("tx-" ++ s).data = "".data := congrArg String.data h
  rw [String.data_append] at h2
  rcases List.append_eq_nil.mp h2 with ⟨h3, _⟩
  have hne : "tx-".data ≠ [] := by decide
  exact hne h3

/-- Appending a fresh element to a duplicate-free list keeps it
duplicate-free. -/
theorem nodupAppendSingleton {α : Type} {l : List α} {a : α}
    (hl : l.Nodup) (ha : a ∉ l) : (l ++ [a]).Nodup := by
  simp [List.nodup_append, hl, ha]

/-- Every error outcome of the release core carries the record it was given,
unchanged: the guards fire before the append, and the mock
`CreateTransaction` never fails, so the post-append error branch is dead. -/
theorem releaseEscrowCore_error_inv {req : ReleaseRequest} {e : Escrow} {now : Int}
    {err : EscrowError} {e' : Escrow}
    (h : releaseEscrowCore req e now = Except.error (err, e')) : e' = e := by
  simp only [releaseEscrowCore, CreateTransaction] at h
  split_ifs at h <;>
    simp only [Except.error.injEq, Prod.mk.injEq, reduceCtorEq] at h <;>
    exact h.2.symm

/-- Every error outcome of the refund core carries the record unchanged. -/
theorem refundEscrowCore_error_inv {req : RefundRequest} {e : Escrow} {now : Int}
    {err : EscrowError} {e' : Escrow}
    (h : refundEscrowCore req e now = Except.error (err, e')) : e' = e := by
  simp only [refundEscrowCore, CreateTransaction] at h
  split_ifs at h <;>
    simp only [Except.error.injEq, Prod.mk.injEq, reduceCtorEq] at h <;>
    exact h.2.symm

/-- Every error outcome of the payment-verification core carries the record
unchanged. -/
theorem verifyPaymentCore_error_inv {escrowID txID : String} {e : Escrow}
    {err : EscrowError} {e' : Escrow}
    (h : verifyPaymentCore escrowID txID e = Except.error (err, e')) : e' = e := by
  simp only [verifyPaymentCore] at h
  split_ifs at h
  · simp only [Except.error.injEq, Prod.mk.injEq] at h
    exact h.2.symm
  · simp only [Except.error.injEq, Prod.mk.injEq] at h
    exact h.2.symm
  · cases hv : VerifyTransaction txID with
    | error msg =>
      rw [hv] at h
      simp only [Except.error.injEq, Prod.mk.injEq] at h
      exact h.2.symm
    | ok b =>
      rw [hv] at h
      cases b
      · simp only [Except.error.injEq, Prod.mk.injEq] at h
        exact h.2.symm
      · simp at h

/-- Characterization of a successful release submission: the guards all
passed, the new signature is appended at the end, the refund sequence and
the identity fields are untouched, and the status and settlement outcome
are decided by the threshold on the new length. -/
theorem releaseEscrowCore_ok_inv {req : ReleaseRequest} {e : Escrow} {now : Int}
    {e' : Escrow} {c : Option SettlementCall}
    (h : releaseEscrowCore req e now = Except.ok (e', c)) :
    e.releaseSignatures.any (fun s => s.party == req.party) = false ∧
    e'.releaseSignatures = e.releaseSignatures ++
      [{ party := req.party, signature := req.signature,
         timestamp := now, publicKey := req.publicKey }] ∧
    e'.refundSignatures = e.refundSignatures ∧
    e'.id = e.id ∧ e'.buyerPubKey = e.buyerPubKey ∧
    e'.sellerPubKey = e.sellerPubKey ∧ e'.escrowPubKey = e.escrowPubKey ∧
    e'.amount = e.amount := by
  simp only [releaseEscrowCore, CreateTransaction] at h
  split_ifs at h with h1 h2 h3 h4 h5 <;>
    simp only [Except.ok.injEq, Prod.mk.injEq, reduceCtorEq] at h <;>
    · obtain ⟨he, _⟩ := h
      subst he
      exact ⟨by simpa using h4, rfl, rfl, rfl, rfl, rfl, rfl, rfl⟩

/-- Characterization of a successful refund submission, symmetric to
`releaseEscrowCore_ok_inv`. -/
theorem refundEscrowCore_ok_inv {req : RefundRequest} {e : Escrow} {now : Int}
    {e' : Escrow} {c : Option SettlementCall}
    (h : refundEscrowCore req e now = Except.ok (e', c)) :
    e.refundSignatures.any (fun s => s.party == req.party) = false ∧
    e'.refundSignatures = e.refundSignatures ++
      [{ party := req.party, signature := req.signature,
         timestamp := now, publicKey := req.publicKey }] ∧
    e'.releaseSignatures = e.releaseSignatures ∧
    e'.id = e.id ∧ e'.buyerPubKey = e.buyerPubKey ∧
    e'.sellerPubKey = e.sellerPubKey ∧ e'.escrowPubKey = e.escrowPubKey ∧
    e'.amount = e.amount := by
  simp only [refundEscrowCore, CreateTransaction] at h
  split_ifs at h with h1 h2 h3 h4 h5 <;>
    simp only [Except.ok.injEq, Prod.mk.injEq, reduceCtorEq] at h <;>
    · obtain ⟨he, _⟩ := h
      subst he
      exact ⟨by simpa using h4, rfl, rfl, rfl, rfl, rfl, rfl, rfl⟩

/-- Characterization of a successful payment verification: only the status
and the payment txid change. -/
theorem verifyPaymentCore_ok_inv {escrowID txID : String} {e : Escrow} {e' : Escrow}
    (h : verifyPaymentCore escrowID txID e = Except.ok e') :
    e' = { e with status := "funded", paymentTxID := txID } := by
  simp only [verifyPaymentCore] at h
  split_ifs at h
  cases hv : VerifyTransaction txID with
  | error msg => rw [hv] at h; exact absurd h (by simp)
  | ok b =>
    rw [hv] at h
    cases b
    · exact absurd h (by simp)
    · exact (Except.ok.inj h).symm

/-- Characterization of a successful creation: the record starts in status
`created`, with the request's keys and amount, empty signature sequences
and empty transaction ids. -/
theorem createEscrowCore_ok_inv {req : EscrowRequest} {msr : Except String String}
    {dok : Bool} {now : Int} {e : Escrow}
    (h : createEscrowCore req msr dok now = Except.ok e) :
    e.status = "created" ∧ e.amount = req.amount ∧ 0 < req.amount ∧
    e.buyerPubKey = req.buyerPubKey ∧ e.sellerPubKey = req.sellerPubKey ∧
    e.escrowPubKey = req.escrowPubKey ∧
    e.releaseSignatures = [] ∧ e.refundSignatures = [] ∧
    e.paymentTxID = "" ∧ e.releaseTxID = "" ∧ e.refundTxID = "" := by
  simp only [createEscrowCore, CreateBIP70PaymentRequest] at h
  split_ifs at h <;> cases msr <;>
    first
      | (simp only [Except.ok.injEq] at h
         subst h
         exact ⟨rfl, rfl, by omega, rfl, rfl, rfl, rfl, rfl, rfl, rfl, rfl⟩)
      | simp at h

/-- A party whose role makes `any` false does not occur in the sequence's
role list. -/
theorem notMemOfAnyFalse {l : List PartySignature} {p : String}
    (h : l.any (fun s => s.party == p) = false) : p ∉ partiesOf l := by
  intro hmem
  rw [partiesOf, List.mem_map] at hmem
  obtain ⟨s, hs, hp⟩ := hmem
  rw [List.any_eq_false] at h
  exact (h s hs) (by simp [hp])

/-- A well-formed release submission below threshold appends the signature
and moves the record to `releasing`, with no settlement call. -/
theorem releaseEscrowCore_submit_below (req : ReleaseRequest) (e : Escrow) (now : Int)
    (hf1 : req.escrowID ≠ "") (hf2 : req.privateKey ≠ "") (hf3 : req.signature ≠ "")
    (hf4 : req.publicKey ≠ "")
    (hp : req.party = "buyer" ∨ req.party = "seller" ∨ req.party = "escrow")
    (hs : e.status = "funded" ∨ e.status = "releasing")
    (hdup : e.releaseSignatures.any (fun s => s.party == req.party) = false)
    (hlen : e.releaseSignatures.length = 0) :
    releaseEscrowCore req e now =
      Except.ok ({ e with
          releaseSignatures := e.releaseSignatures ++
              [{ party := req.party, signature := req.signature, timestamp := now,
                 publicKey := req.publicKey }],
          status := "releasing" }, none) := by
  have hpne : req.party ≠ "" := by rcases hp with h | h | h <;> simp [h]
  simp only [releaseEscrowCore, CreateTransaction]
  rw [if_neg (by simp [hf1, hf2, hf3, hf4, hpne]),
      if_neg (by rcases hp with h | h | h <;> rw [h] <;> decide),
      if_neg (by rcases hs with h | h <;> rw [h] <;> decide),
      if_neg (by simp [hdup]),
      if_neg (by simp [List.length_append, hlen])]

/-- A well-formed release submission that reaches the threshold appends the
signature, moves the record to `released`, records the mock txid, and calls
the settlement collaborator with the amount minus the fixed 1000 fee. -/
theorem releaseEscrowCore_submit_threshold (req : ReleaseRequest) (e : Escrow) (now : Int)
    (hf1 : req.escrowID ≠ "") (hf2 : req.privateKey ≠ "") (hf3 : req.signature ≠ "")
    (hf4 : req.publicKey ≠ "")
    (hp : req.party = "buyer" ∨ req.party = "seller" ∨ req.party = "escrow")
    (hs : e.status = "funded" ∨ e.status = "releasing")
    (hdup : e.releaseSignatures.any (fun s => s.party == req.party) = false)
    (hlen : 1 ≤ e.releaseSignatures.length) :
    releaseEscrowCore req e now =
      Except.ok ({ e with
          releaseSignatures := e.releaseSignatures ++
              [{ party := req.party, signature := req.signature, timestamp := now,
                 publicKey := req.publicKey }],
          status := "released",
          releaseTxID := "tx-" ++ toString now },
        some { fromAddress := e.multiSigAddress, toAddress := e.sellerPubKey,
               amount := e.amount - 1000, privateKey := req.privateKey }) := by
  have hpne : req.party ≠ "" := by rcases hp with h | h | h <;> simp [h]
  simp only [releaseEscrowCore, CreateTransaction]
  rw [if_neg (by simp [hf1, hf2, hf3, hf4, hpne]),
      if_neg (by rcases hp with h | h | h <;> rw [h] <;> decide),
      if_neg (by rcases hs with h | h <;> rw [h] <;> decide),
      if_neg (by simp [hdup]),
      if_pos (by simp [List.length_append]; omega)]

/-- A well-formed refund submission below threshold appends the signature
and moves the record to `refunding`, with no settlement call. -/
theorem refundEscrowCore_submit_below (req : RefundRequest) (e : Escrow) (now : Int)
    (hf1 : req.escrowID ≠ "") (hf2 : req.privateKey ≠ "") (hf3 : req.signature ≠ "")
    (hf4 : req.publicKey ≠ "")
    (hp : req.party = "buyer" ∨ req.party = "seller" ∨ req.party = "escrow")
    (hs : e.status = "funded" ∨ e.status = "refunding")
    (hdup : e.refundSignatures.any (fun s => s.party == req.party) = false)
    (hlen : e.refundSignatures.length = 0) :
    refundEscrowCore req e now =
      Except.ok ({ e with
          refundSignatures := e.refundSignatures ++
              [{ party := req.party, signature := req.signature, timestamp := now,
                 publicKey := req.publicKey }],
          status := "refunding" }, none) := by
  have hpne : req.party ≠ "" := by rcases hp with h | h | h <;> simp [h]
  simp only [refundEscrowCore, CreateTransaction]
  rw [if_neg (by simp [hf1, hf2, hf3, hf4, hpne]),
      if_neg (by rcases hp with h | h | h <;> rw [h] <;> decide),
      if_neg (by rcases hs with h | h <;> rw [h] <;> decide),
      if_neg (by simp [hdup]),
      if_neg (by simp [List.length_append, hlen])]

/-- A well-formed refund submission that reaches the threshold appends the
signature, moves the record to `refunded`, records the mock txid, and calls
the settlement collaborator with the amount minus the fixed 1000 fee. -/
theorem refundEscrowCore_submit_threshold (req : RefundRequest) (e : Escrow) (now : Int)
    (hf1 : req.escrowID ≠ "") (hf2 : req.privateKey ≠ "") (hf3 : req.signature ≠ "")
    (hf4 : req.publicKey ≠ "")
    (hp : req.party = "buyer" ∨ req.party = "seller" ∨ req.party = "escrow")
    (hs : e.status = "funded" ∨ e.status = "refunding")
    (hdup : e.refundSignatures.any (fun s => s.party == req.party) = false)
    (hlen : 1 ≤ e.refundSignatures.length) :
    refundEscrowCore req e now =
      Except.ok ({ e with
          refundSignatures := e.refundSignatures ++
              [{ party := req.party, signature := req.signature, timestamp := now,
                 publicKey := req.publicKey }],
          status := "refunded",
          refundTxID := "tx-" ++ toString now },
        some { fromAddress := e.multiSigAddress, toAddress := e.buyerPubKey,
               amount := e.amount - 1000, privateKey := req.privateKey }) := by
  have hpne : req.party ≠ "" := by rcases hp with h | h | h <;> simp [h]
  simp only [refundEscrowCore, CreateTransaction]
  rw [if_neg (by simp [hf1, hf2, hf3, hf4, hpne]),
      if_neg (by rcases hp with h | h | h <;> rw [h] <;> decide),
      if_neg (by rcases hs with h | h <;> rw [h] <;> decide),
      if_neg (by simp [hdup]),
      if_pos (by simp [List.length_append]; omega)]

/-- VerifyTransaction accepts (with `true`) exactly the 64-character
hexadecimal ids present in the known-settled set. -/
theorem VerifyTransaction_ok_true_iff (txID : String) :
    VerifyTransaction txID = Except.ok true ↔
      (txID.length = 64 ∧ txID.data.all isHexChar = true ∧
       knownTransactions txID = some true) := by
  unfold VerifyTransaction
  split_ifs with t1 t2 t3
  · subst t1
    constructor
    · intro h; exact absurd h (by decide)
    · rintro ⟨h64, -, -⟩; exact absurd h64 (by decide)
  · constructor
    · intro h; exact absurd h (by simp)
    · rintro ⟨h64, -, -⟩; exact absurd h64 t2
  · constructor
    · intro h; exact absurd h (by simp)
    · rintro ⟨-, hhex, -⟩; rw [t3] at hhex; exact absurd hhex (by decide)
  · push_neg at t3
    cases hk : knownTransactions txID with
    | none =>
      constructor
      · intro h; exact absurd h (by simp)
      · rintro ⟨-, -, hsome⟩; exact absurd hsome (by simp)
    | some b =>
      cases b
      · constructor
        · intro h; exact absurd h (by simp)
        · rintro ⟨-, -, hsome⟩; exact absurd hsome (by simp)
      · constructor
        · intro h
          refine ⟨by omega, ?_, rfl⟩
          cases hb : txID.data.all isHexChar with
          | false => exact absurd hb t3
          | true => rfl
        · intro h; rfl

/-- Concrete creation request used by witnesses. -/
def sampleCreateReq : EscrowRequest :=
  { buyerPubKey := "b", sellerPubKey := "s", escrowPubKey := "e",
    amount := 100000, description := "", expiryHours := 0 }

/-- The record `createEscrowCore sampleCreateReq (Except.ok "addr") true 0`
produces. -/
def sampleCreated : Escrow :=
  { id := "escrow-0", buyerPubKey := "b", sellerPubKey := "s", escrowPubKey := "e",
    multiSigAddress := "addr", amount := 100000, description := "",
    status := "created",
    paymentRequest :=
      { address := "addr", amount := 100000, memo := "Escrow payment", expires := 3600,
        paymentURL := "http://localhost:8080/pay/req-0", merchantID := "EscrowService",
        requestID := "req-0", callbackURL := "http://localhost:8080/callback/req-0" },
    createdAt := 0, expiresAt := 86400, paymentTxID := "", releaseTxID := "",
    refundTxID := "", releaseSignatures := [], refundSignatures := [] }

/-- The first entry of the known-settled transaction set. -/
def knownTx : String :=
  "26dd4663518b3e24872fd5635fd889a8a0e1c232b8d488868ac378a0a2d28fb1"

/-- A freshly funded record. -/
def sampleFunded : Escrow :=
  { sampleCreated with status := "funded", paymentTxID := knownTx }

/-- A funded record that already carries one release signature (reachable:
fund the record, submit one release signature, then re-run `VerifyPayment`
with a settled txid — the handler only guards against status `funded`). -/
def fundedOneSig : Escrow :=
  { sampleFunded with
    releaseSignatures :=
        [{ party := "escrow", signature := "sig0", timestamp := 1, publicKey := "pk0" }] }

/-- A released record with its two signatures. -/
def sampleReleased : Escrow :=
  { sampleFunded with
    status := "released",
    releaseTxID := "tx-9",
    releaseSignatures :=
        [{ party := "seller", signature := "sig1", timestamp := 5, publicKey := "pk1" },
         { party := "buyer", signature := "sig2", timestamp := 6, publicKey := "pk2" }] }

/-- A funded record whose amount does not cover the fixed 1000-satoshi fee,
with one release signature and one refund signature already collected. -/
def lowAmountFunded : Escrow :=
  { sampleFunded with
    amount := 500,
    releaseSignatures :=
        [{ party := "escrow", signature := "sig0", timestamp := 1, publicKey := "pk0" }],
    refundSignatures :=
        [{ party := "escrow", signature := "sig0", timestamp := 1, publicKey := "pk0" }] }

/-- Release request from the seller. -/
def sampleReleaseSeller : ReleaseRequest :=
  { escrowID := "escrow-0", privateKey := "k", signature := "sig1",
    party := "seller", publicKey := "pk1" }

/-- Release request from the buyer. -/
def sampleReleaseBuyer : ReleaseRequest :=
  { escrowID := "escrow-0", privateKey := "k", signature := "sig2",
    party := "buyer", publicKey := "pk2" }

/-- Refund request from the buyer. -/
def sampleRefundBuyer : RefundRequest :=
  { escrowID := "escrow-0", privateKey := "k", signature := "sig3",
    party := "buyer", publicKey := "pk2" }

/-- Refund request from the seller. -/
def sampleRefundSeller : RefundRequest :=
  { escrowID := "escrow-0", privateKey := "k", signature := "sig4",
    party := "seller", publicKey := "pk1" }

/-- The record one seller release signature on `sampleFunded` produces. -/
def sampleReleasing : Escrow :=
  { sampleFunded with
    releaseSignatures :=
        [{ party := "seller", signature := "sig1", timestamp := 5, publicKey := "pk1" }],
    status := "releasing" }

/-- C5: VerifyPayment is idempotent-safe: on a record whose status is
already `funded`, any further call (with the id and txid actually supplied)
yields AlreadyFunded and returns the record unchanged, so PaymentTxID is
not changed. -/
theorem verifyPayment_alreadyFunded (escrowID txID : String) (e : Escrow)
    (h1 : escrowID ≠ "") (h2 : txID ≠ "") (h : e.status = "funded") :
    verifyPaymentCore escrowID txID e =
      Except.error (EscrowError.alreadyFunded, e) := by
  simp only [verifyPaymentCore]
  rw [if_neg (by simp [h1, h2]), if_pos h]

/-- C5 witness: a second verification on a concrete funded record is
rejected with AlreadyFunded and the record — hence its PaymentTxID — is
unchanged. -/
theorem verifyPayment_alreadyFunded_witness :
    verifyPaymentCore "escrow-0" knownTx sampleFunded =
      Except.error (EscrowError.alreadyFunded, sampleFunded) :=
  verifyPayment_alreadyFunded "escrow-0" knownTx sampleFunded
    (by decide) (by decide) rfl

/-- C6: every guard violation and every collaborator failure of the three
mutating operations returns an error carrying the record exactly as it was
given: there is no reachable partial-append state (the mock
`CreateTransaction` never fails, so the post-append error branch is dead). -/
theorem mutating_ops_error_leave_record_unchanged :
    (∀ (req : ReleaseRequest) (e : Escrow) (now : Int) (err : EscrowError) (e' : Escrow),
        releaseEscrowCore req e now = Except.error (err, e') → e' = e) ∧
    (∀ (req : RefundRequest) (e : Escrow) (now : Int) (err : EscrowError) (e' : Escrow),
        refundEscrowCore req e now = Except.error (err, e') → e' = e) ∧
    (∀ (escrowID txID : String) (e : Escrow) (err : EscrowError) (e' : Escrow),
        verifyPaymentCore escrowID txID e = Except.error (err, e') → e' = e) :=
  ⟨fun _ _ _ _ _ h => releaseEscrowCore_error_inv h,
   fun _ _ _ _ _ h => refundEscrowCore_error_inv h,
   fun _ _ _ _ _ h => verifyPaymentCore_error_inv h⟩

/-- C6 witness: a release submission rejected for being in status `created`
carries back the unchanged record. -/
theorem mutating_ops_error_leave_record_unchanged_witness :
    releaseEscrowCore sampleReleaseSeller sampleCreated 5 =
      Except.error (EscrowError.invalidStatus "created" "funded or releasing",
        sampleCreated) ∧
    sampleCreated = sampleCreated :=
  ⟨rfl,
   mutating_ops_error_leave_record_unchanged.1 sampleReleaseSeller sampleCreated 5
     (EscrowError.invalidStatus "created" "funded or releasing") sampleCreated
     rfl⟩

/-- C8: the amount is strictly positive at creation, and every invocation of
VerifyPayment, ReleaseEscrow or RefundEscrow — successful or not — leaves
the record's identifier, its three party public keys and its amount
unchanged. -/
theorem identity_fields_immutable :
    (∀ (req : EscrowRequest) (msr : Except String String) (dok : Bool)
        (now : Int) (e : Escrow),
        createEscrowCore req msr dok now = Except.ok e → 0 < e.amount) ∧
    (∀ (e e' : Escrow), EscrowStep e e' → sameCore e' e) := by
  constructor
  · intro req msr dok now e h
    obtain ⟨-, ha, hpos, -⟩ := createEscrowCore_ok_inv h
    rw [ha]; exact hpos
  · intro e e' hstep
    cases hstep with
    | verifyOk _ _ _ _ h =>
      rw [verifyPaymentCore_ok_inv h]; exact ⟨rfl, rfl, rfl, rfl, rfl⟩
    | verifyErr _ _ _ _ _ h =>
      rw [verifyPaymentCore_error_inv h]; exact ⟨rfl, rfl, rfl, rfl, rfl⟩
    | releaseOk _ _ _ _ _ h =>
      obtain ⟨-, -, -, h4, h5, h6, h7, h8⟩ := releaseEscrowCore_ok_inv h
      exact ⟨h4, h5, h6, h7, h8⟩
    | releaseErr _ _ _ _ _ h =>
      rw [releaseEscrowCore_error_inv h]; exact ⟨rfl, rfl, rfl, rfl, rfl⟩
    | refundOk _ _ _ _ _ h =>
      obtain ⟨-, -, -, h4, h5, h6, h7, h8⟩ := refundEscrowCore_ok_inv h
      exact ⟨h4, h5, h6, h7, h8⟩
    | refundErr _ _ _ _ _ h =>
      rw [refundEscrowCore_error_inv h]; exact ⟨rfl, rfl, rfl, rfl, rfl⟩

/-- C8 witness: the concrete created record has positive amount, and one
concrete release step preserves the identity fields. -/
theorem identity_fields_immutable_witness :
    (0 : Int) < sampleCreated.amount ∧ sameCore sampleReleasing sampleFunded :=
  ⟨identity_fields_immutable.1 sampleCreateReq (Except.ok "addr") true 0
     sampleCreated rfl,
   identity_fields_immutable.2 sampleFunded sampleReleasing
     (EscrowStep.releaseOk sampleReleaseSeller 5 sampleFunded sampleReleasing none rfl)⟩

/-- C10: on every successful creation, a non-positive (absent) expiryHours
yields an expiry of 24 hours after the creation time, and a positive
expiryHours yields an expiry of exactly that many hours after the creation
time. -/
theorem createEscrow_expiry (req : EscrowRequest) (msr : Except String String)
    (dok : Bool) (now : Int) (e : Escrow)
    (h : createEscrowCore req msr dok now = Except.ok e) :
    (req.expiryHours ≤ 0 → e.expiresAt = e.createdAt + 24 * 3600) ∧
    (0 < req.expiryHours → e.expiresAt = e.createdAt + req.expiryHours * 3600) := by
  simp only [createEscrowCore, CreateBIP70PaymentRequest] at h
  split_ifs at h <;> cases msr <;>
    first
      | (simp only [Except.ok.injEq] at h
         subst h
         refine ⟨fun h5 => ?_, fun h5 => ?_⟩ <;> dsimp only <;> omega)
      | simp at h

/-- C10 witness: the concrete creation with expiryHours = 0 expires 24
hours (86400 seconds) after its creation time. -/
theorem createEscrow_expiry_witness :
    sampleCreated.expiresAt = sampleCreated.createdAt + 24 * 3600 :=
  (createEscrow_expiry sampleCreateReq (Except.ok "addr") true 0 sampleCreated
    rfl).1 (by decide)

/-- C4: on a record in status `created` (with the escrow id actually
supplied), VerifyPayment succeeds exactly when the txid is a 64-character
hexadecimal string present in the known-settled set; every failure —
including a txid missing from the set — returns the record unchanged, so
the status stays `created`. -/
theorem verifyPayment_created_accepts_iff (escrowID txID : String) (e : Escrow)
    (h1 : escrowID ≠ "") (h2 : e.status = "created") :
    ((∃ e', verifyPaymentCore escrowID txID e = Except.ok e') ↔
      (txID.length = 64 ∧ txID.data.all isHexChar = true ∧
       knownTransactions txID = some true)) ∧
    (∀ (err : EscrowError) (e' : Escrow),
      verifyPaymentCore escrowID txID e = Except.error (err, e') →
        e' = e ∧ e'.status = "created") := by
  constructor
  · constructor
    · rintro ⟨e', he⟩
      have hv : VerifyTransaction txID = Except.ok true := by
        simp only [verifyPaymentCore] at he
        split_ifs at he
        cases hvt : VerifyTransaction txID with
        | error msg => rw [hvt] at he; exact absurd he (by simp)
        | ok b =>
          cases b
          · rw [hvt] at he; exact absurd he (by simp)
          · rfl
      exact (VerifyTransaction_ok_true_iff txID).mp hv
    · intro hconds
      have hv : VerifyTransaction txID = Except.ok true :=
        (VerifyTransaction_ok_true_iff txID).mpr hconds
      have htx : txID ≠ "" := by
        intro hempty
        rw [hempty] at hconds
        exact absurd hconds.1 (by decide)
      refine ⟨{ e with status := "funded", paymentTxID := txID }, ?_⟩
      simp only [verifyPaymentCore]
      rw [if_neg (by simp [h1, htx]), if_neg (by rw [h2]; decide), hv]
  · intro err e' he
    have := verifyPaymentCore_error_inv he
    subst this
    exact ⟨rfl, h2⟩

/-- C4 witness: on a concrete created record, a settled 64-hex txid is
accepted, and the unknown (but well-formed) all-zero txid is rejected with
the record left in `created`. -/
theorem verifyPayment_created_accepts_iff_witness :
    (∃ e', verifyPaymentCore "escrow-0" knownTx sampleCreated = Except.ok e') ∧
    ¬(∃ e', verifyPaymentCore "escrow-0"
        "0000000000000000000000000000000000000000000000000000000000000000"
        sampleCreated = Except.ok e') :=
  ⟨((verifyPayment_created_accepts_iff "escrow-0" knownTx sampleCreated
      (by decide) rfl).1).mpr ⟨by decide, by decide, by decide⟩,
   fun hex =>
    absurd (((verifyPayment_created_accepts_iff "escrow-0"
        "0000000000000000000000000000000000000000000000000000000000000000"
        sampleCreated (by decide) rfl).1).mp hex).2.2 (by decide)⟩

/-- C7: every creation request with three non-empty keys, positive amount
and a successfully derived (non-empty) address yields a stored record in
status `created` carrying the derived address; every request with
non-positive amount is rejected with a ValidationError-class error
(missing fields or invalid amount) and nothing is inserted. -/
theorem createEscrow_valid_and_invalid :
    (∀ (req : EscrowRequest) (addr : String) (now : Int)
        (store : List (String × Escrow)),
      req.buyerPubKey ≠ "" → req.sellerPubKey ≠ "" → req.escrowPubKey ≠ "" →
      0 < req.amount → addr ≠ "" →
      ∃ e, createEscrowHandler req (Except.ok addr) true now store =
          (Except.ok e, (e.id, e) :: store) ∧
        e.status = "created" ∧ e.multiSigAddress = addr ∧
        e.multiSigAddress ≠ "") ∧
    (∀ (req : EscrowRequest) (msr : Except String String) (dok : Bool)
        (now : Int) (store : List (String × Escrow)),
      req.amount ≤ 0 →
      ∃ err, createEscrowHandler req msr dok now store = (Except.error err, store) ∧
        (err = EscrowError.missingFields ∨ err = EscrowError.invalidAmount)) := by
  constructor
  · intro req addr now store hb hs he hamt haddr
    refine
      ⟨{ id := "escrow-" ++ toString now,
         buyerPubKey := req.buyerPubKey,
         sellerPubKey := req.sellerPubKey,
         escrowPubKey := req.escrowPubKey,
         multiSigAddress := addr,
         amount := req.amount,
         description := req.description,
         status := "created",
         paymentRequest :=
           { address := addr, amount := req.amount, memo := "Escrow payment",
             expires := now + 3600,
             paymentURL := "http://localhost:8080/pay/" ++ ("req-" ++ toString now),
             merchantID := "EscrowService",
             requestID := "req-" ++ toString now,
             callbackURL := "http://localhost:8080/callback/" ++ ("req-" ++ toString now) },
         createdAt := now,
         expiresAt := now + (if req.expiryHours > 0 then req.expiryHours else 24) * 3600,
         paymentTxID := "", releaseTxID := "", refundTxID := "",
         releaseSignatures := [], refundSignatures := [] }, ?_, rfl, rfl, haddr⟩
    simp only [createEscrowHandler, createEscrowCore, CreateBIP70PaymentRequest]
    rw [if_neg (by simp [hb, hs, he]), if_neg (by omega), if_neg (by decide)]
  · intro req msr dok now store hamt
    by_cases hf : (req.buyerPubKey = "" ∨ req.sellerPubKey = "" ∨ req.escrowPubKey = "")
    · refine ⟨EscrowError.missingFields, ?_, Or.inl rfl⟩
      simp [createEscrowHandler, createEscrowCore, hf]
    · refine ⟨EscrowError.invalidAmount, ?_, Or.inr rfl⟩
      simp [createEscrowHandler, createEscrowCore, hf, hamt]

/-- C7 witness: the concrete valid request is created and stored; the same
request with amount 0 is rejected and the store is untouched. -/
theorem createEscrow_valid_and_invalid_witness :
    (∃ e, createEscrowHandler sampleCreateReq (Except.ok "addr") true 0 [] =
        (Except.ok e, (e.id, e) :: []) ∧
      e.status = "created" ∧ e.multiSigAddress = "addr" ∧
      e.multiSigAddress ≠ "") ∧
    (∃ err, createEscrowHandler { sampleCreateReq with amount := 0 }
        (Except.ok "addr") true 0 [] = (Except.error err, []) ∧
      (err = EscrowError.missingFields ∨ err = EscrowError.invalidAmount)) :=
  ⟨createEscrow_valid_and_invalid.1 sampleCreateReq "addr" 0 []
     (by decide) (by decide) (by decide) (by decide) (by decide),
   createEscrow_valid_and_invalid.2 { sampleCreateReq with amount := 0 }
     (Except.ok "addr") true 0 [] (by decide)⟩

/-- C9: a well-formed second signature on a record whose amount is at most
the fixed 1000-satoshi fee still succeeds and reaches the terminal status,
handing the collaborator a settlement call whose amount, the escrow amount
minus 1000, is zero or negative; the same holds for refund. -/
theorem threshold_ignores_fee_underflow :
    (∀ (req : ReleaseRequest) (e : Escrow) (now : Int),
      req.escrowID ≠ "" → req.privateKey ≠ "" → req.signature ≠ "" →
      req.publicKey ≠ "" →
      (req.party = "buyer" ∨ req.party = "seller" ∨ req.party = "escrow") →
      (e.status = "funded" ∨ e.status = "releasing") →
      e.releaseSignatures.any (fun s => s.party == req.party) = false →
      1 ≤ e.releaseSignatures.length →
      e.amount ≤ 1000 →
      ∃ e', releaseEscrowCore req e now =
          Except.ok (e', some
            { fromAddress := e.multiSigAddress, toAddress := e.sellerPubKey,
              amount := e.amount - 1000, privateKey := req.privateKey }) ∧
        e'.status = "released" ∧ e.amount - 1000 ≤ 0) ∧
    (∀ (req : RefundRequest) (e : Escrow) (now : Int),
      req.escrowID ≠ "" → req.privateKey ≠ "" → req.signature ≠ "" →
      req.publicKey ≠ "" →
      (req.party = "buyer" ∨ req.party = "seller" ∨ req.party = "escrow") →
      (e.status = "funded" ∨ e.status = "refunding") →
      e.refundSignatures.any (fun s => s.party == req.party) = false →
      1 ≤ e.refundSignatures.length →
      e.amount ≤ 1000 →
      ∃ e', refundEscrowCore req e now =
          Except.ok (e', some
            { fromAddress := e.multiSigAddress, toAddress := e.buyerPubKey,
              amount := e.amount - 1000, privateKey := req.privateKey }) ∧
        e'.status = "refunded" ∧ e.amount - 1000 ≤ 0) := by
  constructor
  · intro req e now hf1 hf2 hf3 hf4 hp hs hdup hlen hamt
    exact ⟨_, releaseEscrowCore_submit_threshold req e now hf1 hf2 hf3 hf4 hp hs
      hdup hlen, rfl, by omega⟩
  · intro req e now hf1 hf2 hf3 hf4 hp hs hdup hlen hamt
    exact ⟨_, refundEscrowCore_submit_threshold req e now hf1 hf2 hf3 hf4 hp hs
      hdup hlen, rfl, by omega⟩

/-- C9 witness: on the concrete 500-satoshi funded record with one prior
signature of each kind, a second release signature succeeds into `released`
with settlement amount -500, and likewise for refund. -/
theorem threshold_ignores_fee_underflow_witness :
    (∃ e', releaseEscrowCore sampleReleaseBuyer lowAmountFunded 7 =
        Except.ok (e', some
          { fromAddress := lowAmountFunded.multiSigAddress,
            toAddress := lowAmountFunded.sellerPubKey,
            amount := lowAmountFunded.amount - 1000,
            privateKey := sampleReleaseBuyer.privateKey }) ∧
      e'.status = "released" ∧ lowAmountFunded.amount - 1000 ≤ 0) ∧
    (∃ e', refundEscrowCore sampleRefundBuyer lowAmountFunded 7 =
        Except.ok (e', some
          { fromAddress := lowAmountFunded.multiSigAddress,
            toAddress := lowAmountFunded.buyerPubKey,
            amount := lowAmountFunded.amount - 1000,
            privateKey := sampleRefundBuyer.privateKey }) ∧
      e'.status = "refunded" ∧ lowAmountFunded.amount - 1000 ≤ 0) :=
  ⟨threshold_ignores_fee_underflow.1 sampleReleaseBuyer lowAmountFunded 7
     (by decide) (by decide) (by decide) (by decide) (Or.inl rfl) (Or.inl rfl)
     (by decide) (by decide) (by decide),
   threshold_ignores_fee_underflow.2 sampleRefundBuyer lowAmountFunded 7
     (by decide) (by decide) (by decide) (by decide) (Or.inl rfl) (Or.inl rfl)
     (by decide) (by decide) (by decide)⟩

/-- C1 counterexample: `fundedOneSig` has status `funded`, yet a single
release signature (from the buyer, a party not yet in the sequence) drives
it straight to `released` — not to `releasing` as the claim states for
every funded record.  Such records are reachable: fund, submit one release
signature, then call VerifyPayment again with a settled txid (it only
guards against status `funded`). -/
theorem funded_single_signature_counterexample :
    (releaseEscrowCore sampleReleaseBuyer fundedOneSig 5).map
        (fun p => p.1.status) = Except.ok "released" ∧
    ("released" : String) ≠ "releasing" :=
  ⟨rfl, by decide⟩

/-- C1 amended: for every funded record whose release-signature sequence
and release txid are still empty, two well-formed release signatures from
distinct parties, in either order, drive the record through `releasing`
(one signature, no txid) to `released` with a non-empty release txid; the
symmetric property holds for refund. -/
theorem funded_two_distinct_signatures :
    (∀ (r1 r2 : ReleaseRequest) (e : Escrow) (n1 n2 : Int),
      r1.escrowID ≠ "" → r1.privateKey ≠ "" → r1.signature ≠ "" → r1.publicKey ≠ "" →
      r2.escrowID ≠ "" → r2.privateKey ≠ "" → r2.signature ≠ "" → r2.publicKey ≠ "" →
      (r1.party = "buyer" ∨ r1.party = "seller" ∨ r1.party = "escrow") →
      (r2.party = "buyer" ∨ r2.party = "seller" ∨ r2.party = "escrow") →
      r1.party ≠ r2.party →
      e.status = "funded" → e.releaseSignatures = [] → e.releaseTxID = "" →
      ∃ e1 e2 c,
        releaseEscrowCore r1 e n1 = Except.ok (e1, none) ∧
        e1.status = "releasing" ∧ e1.releaseTxID = "" ∧
        e1.releaseSignatures.length = 1 ∧
        releaseEscrowCore r2 e1 n2 = Except.ok (e2, some c) ∧
        e2.status = "released" ∧ e2.releaseTxID ≠ "" ∧
        e2.releaseSignatures.length = 2) ∧
    (∀ (r1 r2 : RefundRequest) (e : Escrow) (n1 n2 : Int),
      r1.escrowID ≠ "" → r1.privateKey ≠ "" → r1.signature ≠ "" → r1.publicKey ≠ "" →
      r2.escrowID ≠ "" → r2.privateKey ≠ "" → r2.signature ≠ "" → r2.publicKey ≠ "" →
      (r1.party = "buyer" ∨ r1.party = "seller" ∨ r1.party = "escrow") →
      (r2.party = "buyer" ∨ r2.party = "seller" ∨ r2.party = "escrow") →
      r1.party ≠ r2.party →
      e.status = "funded" → e.refundSignatures = [] → e.refundTxID = "" →
      ∃ e1 e2 c,
        refundEscrowCore r1 e n1 = Except.ok (e1, none) ∧
        e1.status = "refunding" ∧ e1.refundTxID = "" ∧
        e1.refundSignatures.length = 1 ∧
        refundEscrowCore r2 e1 n2 = Except.ok (e2, some c) ∧
        e2.status = "refunded" ∧ e2.refundTxID ≠ "" ∧
        e2.refundSignatures.length = 2) := by
  constructor
  · intro r1 r2 e n1 n2 h11 h12 h13 h14 h21 h22 h23 h24 hp1 hp2 hne hst hsigs htx
    have hbelow := releaseEscrowCore_submit_below r1 e n1 h11 h12 h13 h14 hp1
      (Or.inl hst) (by rw [hsigs]; rfl) (by rw [hsigs]; rfl)
    have hthr := releaseEscrowCore_submit_threshold r2
        { e with
          releaseSignatures := e.releaseSignatures ++
              [{ party := r1.party, signature := r1.signature, timestamp := n1,
                 publicKey := r1.publicKey }],
          status := "releasing" } n2 h21 h22 h23 h24 hp2 (Or.inr rfl)
        (by simp [hsigs, hne]) (by simp [hsigs])
    exact ⟨_, _, _, hbelow, rfl, htx, by simp [hsigs], hthr, rfl,
      txMockNonempty _, by simp [hsigs]⟩
  · intro r1 r2 e n1 n2 h11 h12 h13 h14 h21 h22 h23 h24 hp1 hp2 hne hst hsigs htx
    have hbelow := refundEscrowCore_submit_below r1 e n1 h11 h12 h13 h14 hp1
      (Or.inl hst) (by rw [hsigs]; rfl) (by rw [hsigs]; rfl)
    have hthr := refundEscrowCore_submit_threshold r2
        { e with
          refundSignatures := e.refundSignatures ++
              [{ party := r1.party, signature := r1.signature, timestamp := n1,
                 publicKey := r1.publicKey }],
          status := "refunding" } n2 h21 h22 h23 h24 hp2 (Or.inr rfl)
        (by simp [hsigs, hne]) (by simp [hsigs])
    exact ⟨_, _, _, hbelow, rfl, htx, by simp [hsigs], hthr, rfl,
      txMockNonempty _, by simp [hsigs]⟩

/-- C1 witness: the concrete fresh funded record goes `releasing` then
`released` under seller-then-buyer signatures, and `refunding` then
`refunded` under buyer-then-seller refund signatures. -/
theorem funded_two_distinct_signatures_witness :
    (∃ e1 e2 c,
      releaseEscrowCore sampleReleaseSeller sampleFunded 5 = Except.ok (e1, none) ∧
      e1.status = "releasing" ∧ e1.releaseTxID = "" ∧
      e1.releaseSignatures.length = 1 ∧
      releaseEscrowCore sampleReleaseBuyer e1 6 = Except.ok (e2, some c) ∧
      e2.status = "released" ∧ e2.releaseTxID ≠ "" ∧
      e2.releaseSignatures.length = 2) ∧
    (∃ e1 e2 c,
      refundEscrowCore sampleRefundBuyer sampleFunded 5 = Except.ok (e1, none) ∧
      e1.status = "refunding" ∧ e1.refundTxID = "" ∧
      e1.refundSignatures.length = 1 ∧
      refundEscrowCore sampleRefundSeller e1 6 = Except.ok (e2, some c) ∧
      e2.status = "refunded" ∧ e2.refundTxID ≠ "" ∧
      e2.refundSignatures.length = 2) :=
  ⟨funded_two_distinct_signatures.1 sampleReleaseSeller sampleReleaseBuyer
     sampleFunded 5 6 (by decide) (by decide) (by decide) (by decide)
     (by decide) (by decide) (by decide) (by decide)
     (Or.inr (Or.inl rfl)) (Or.inl rfl) (by decide) rfl rfl rfl,
   funded_two_distinct_signatures.2 sampleRefundBuyer sampleRefundSeller
     sampleFunded 5 6 (by decide) (by decide) (by decide) (by decide)
     (by decide) (by decide) (by decide) (by decide)
     (Or.inl rfl) (Or.inr (Or.inl rfl)) (by decide) rfl rfl rfl⟩

/-- C2 counterexample: `released` is not terminal — VerifyPayment on a
released record guards only against status `funded`, so a settled txid
drives the record back to `funded`, contradicting the claim that no
operation ever changes a terminal record's status and that unlisted
(status, event) pairs are rejected with InvalidStatus. -/
theorem released_refundable_counterexample :
    verifyPaymentCore "escrow-0" knownTx sampleReleased =
      Except.ok { sampleReleased with status := "funded", paymentTxID := knownTx } :=
  rfl

/-- C2 amended: `released` and `refunded` are terminal for the two
signature-submission operations, which reject any status outside their two
admissible ones with InvalidStatus and leave the record unchanged;
VerifyPayment, however, guards only against status `funded` (AlreadyFunded),
so from any other status — the terminal ones included — a recognized
settled txid moves the record (back) to `funded`. -/
theorem terminal_statuses_amended :
    (∀ (req : ReleaseRequest) (e : Escrow) (now : Int),
      req.escrowID ≠ "" → req.privateKey ≠ "" → req.signature ≠ "" →
      req.publicKey ≠ "" →
      (req.party = "buyer" ∨ req.party = "seller" ∨ req.party = "escrow") →
      e.status ≠ "funded" → e.status ≠ "releasing" →
      releaseEscrowCore req e now =
        Except.error (EscrowError.invalidStatus e.status "funded or releasing", e)) ∧
    (∀ (req : RefundRequest) (e : Escrow) (now : Int),
      req.escrowID ≠ "" → req.privateKey ≠ "" → req.signature ≠ "" →
      req.publicKey ≠ "" →
      (req.party = "buyer" ∨ req.party = "seller" ∨ req.party = "escrow") →
      e.status ≠ "funded" → e.status ≠ "refunding" →
      refundEscrowCore req e now =
        Except.error (EscrowError.invalidStatus e.status "funded or refunding", e)) ∧
    (∀ (escrowID txID : String) (e : Escrow),
      escrowID ≠ "" → e.status ≠ "funded" →
      VerifyTransaction txID = Except.ok true →
      verifyPaymentCore escrowID txID e =
        Except.ok { e with status := "funded", paymentTxID := txID }) := by
  refine ⟨?_, ?_, ?_⟩
  · intro req e now hf1 hf2 hf3 hf4 hp hs1 hs2
    have hpne : req.party ≠ "" := by rcases hp with h | h | h <;> simp [h]
    simp only [releaseEscrowCore]
    rw [if_neg (by simp [hf1, hf2, hf3, hf4, hpne]),
        if_neg (by rcases hp with h | h | h <;> rw [h] <;> decide),
        if_pos ⟨hs1, hs2⟩]
  · intro req e now hf1 hf2 hf3 hf4 hp hs1 hs2
    have hpne : req.party ≠ "" := by rcases hp with h | h | h <;> simp [h]
    simp only [refundEscrowCore]
    rw [if_neg (by simp [hf1, hf2, hf3, hf4, hpne]),
        if_neg (by rcases hp with h | h | h <;> rw [h] <;> decide),
        if_pos ⟨hs1, hs2⟩]
  · intro escrowID txID e h1 h2 hv
    have htx : txID ≠ "" := by
      intro hempty
      rw [hempty] at hv
      simp [VerifyTransaction] at hv
    simp only [verifyPaymentCore]
    rw [if_neg (by simp [h1, htx]), if_neg h2, hv]

/-- C2 amended witness: the released record rejects a further release
signature with InvalidStatus, and a created record is moved to `funded` by
a settled txid. -/
theorem terminal_statuses_amended_witness :
    releaseEscrowCore sampleReleaseSeller sampleReleased 7 =
      Except.error (EscrowError.invalidStatus sampleReleased.status
        "funded or releasing", sampleReleased) ∧
    verifyPaymentCore "escrow-0" knownTx sampleCreated =
      Except.ok { sampleCreated with status := "funded", paymentTxID := knownTx } :=
  ⟨terminal_statuses_amended.1 sampleReleaseSeller sampleReleased 7
     (by decide) (by decide) (by decide) (by decide)
     (Or.inr (Or.inl rfl)) (by decide) (by decide),
   terminal_statuses_amended.2.2 "escrow-0" knownTx sampleCreated
     (by decide) (by decide) rfl⟩

/-- C3 counterexample: on the released record, whose release-signature
sequence already contains the seller, a further seller release signature is
rejected with InvalidStatus — not with DuplicateSignature as the claim
states for every record. -/
theorem duplicate_after_terminal_counterexample :
    releaseEscrowCore sampleReleaseSeller sampleReleased 7 =
      Except.error (EscrowError.invalidStatus "released" "funded or releasing",
        sampleReleased) ∧
    EscrowError.invalidStatus "released" "funded or releasing" ≠
      EscrowError.duplicateSignature "seller" ∧
    sampleReleased.releaseSignatures.any
      (fun s => s.party == sampleReleaseSeller.party) = true :=
  ⟨rfl, by decide, rfl⟩

/-- C3 amended: on a record whose status admits the submission (funded or
releasing for release; funded or refunding for refund), a well-formed
signature from a party already present in the sequence yields
DuplicateSignature and leaves the record — hence the sequence length —
unchanged; consequently every reachable record has at most one entry per
party role in each sequence. -/
theorem duplicate_signature_amended :
    (∀ (req : ReleaseRequest) (e : Escrow) (now : Int),
      req.escrowID ≠ "" → req.privateKey ≠ "" → req.signature ≠ "" →
      req.publicKey ≠ "" →
      (req.party = "buyer" ∨ req.party = "seller" ∨ req.party = "escrow") →
      (e.status = "funded" ∨ e.status = "releasing") →
      e.releaseSignatures.any (fun s => s.party == req.party) = true →
      releaseEscrowCore req e now =
        Except.error (EscrowError.duplicateSignature req.party, e)) ∧
    (∀ (req : RefundRequest) (e : Escrow) (now : Int),
      req.escrowID ≠ "" → req.privateKey ≠ "" → req.signature ≠ "" →
      req.publicKey ≠ "" →
      (req.party = "buyer" ∨ req.party = "seller" ∨ req.party = "escrow") →
      (e.status = "funded" ∨ e.status = "refunding") →
      e.refundSignatures.any (fun s => s.party == req.party) = true →
      refundEscrowCore req e now =
        Except.error (EscrowError.duplicateSignature req.party, e)) ∧
    (∀ e, Reachable e →
      (partiesOf e.releaseSignatures).Nodup ∧
      (partiesOf e.refundSignatures).Nodup) := by
  refine ⟨?_, ?_, ?_⟩
  · intro req e now hf1 hf2 hf3 hf4 hp hs hdup
    have hpne : req.party ≠ "" := by rcases hp with h | h | h <;> simp [h]
    simp only [releaseEscrowCore]
    rw [if_neg (by simp [hf1, hf2, hf3, hf4, hpne]),
        if_neg (by rcases hp with h | h | h <;> rw [h] <;> decide),
        if_neg (by rcases hs with h | h <;> rw [h] <;> decide),
        if_pos hdup]
  · intro req e now hf1 hf2 hf3 hf4 hp hs hdup
    have hpne : req.party ≠ "" := by rcases hp with h | h | h <;> simp [h]
    simp only [refundEscrowCore]
    rw [if_neg (by simp [hf1, hf2, hf3, hf4, hpne]),
        if_neg (by rcases hp with h | h | h <;> rw [h] <;> decide),
        if_neg (by rcases hs with h | h <;> rw [h] <;> decide),
        if_pos hdup]
  · intro e hr
    induction hr with
    | created req msr dok now e h =>
      obtain ⟨-, -, -, -, -, -, hrel, href, -, -, -⟩ := createEscrowCore_ok_inv h
      exact ⟨by simp [partiesOf, hrel], by simp [partiesOf, href]⟩
    | step e e' hre hstep ih =>
      cases hstep with
      | verifyOk _ _ _ _ h =>
        rw [verifyPaymentCore_ok_inv h]
        exact ih
      | verifyErr _ _ _ _ _ h =>
        rw [verifyPaymentCore_error_inv h]
        exact ih
      | releaseOk req now _ _ c h =>
        obtain ⟨hany, hrel, href, -⟩ := releaseEscrowCore_ok_inv h
        constructor
        · rw [hrel]
          simp only [partiesOf, List.map_append, List.map_cons, List.map_nil]
          exact nodupAppendSingleton ih.1 (notMemOfAnyFalse hany)
        · rw [href]
          exact ih.2
      | releaseErr _ _ _ _ _ h =>
        rw [releaseEscrowCore_error_inv h]
        exact ih
      | refundOk req now _ _ c h =>
        obtain ⟨hany, href, hrel, -⟩ := refundEscrowCore_ok_inv h
        constructor
        · rw [hrel]
          exact ih.1
        · rw [href]
          simp only [partiesOf, List.map_append, List.map_cons, List.map_nil]
          exact nodupAppendSingleton ih.2 (notMemOfAnyFalse hany)
      | refundErr _ _ _ _ _ h =>
        rw [refundEscrowCore_error_inv h]
        exact ih

/-- C3 amended witness: a second seller release signature on the concrete
`releasing` record is rejected with DuplicateSignature and the record is
unchanged; the concrete created record (reachable) has duplicate-free
sequences. -/
theorem duplicate_signature_amended_witness :
    releaseEscrowCore sampleReleaseSeller sampleReleasing 8 =
      Except.error (EscrowError.duplicateSignature "seller", sampleReleasing) ∧
    ((partiesOf sampleCreated.releaseSignatures).Nodup ∧
     (partiesOf sampleCreated.refundSignatures).Nodup) :=
  ⟨duplicate_signature_amended.1 sampleReleaseSeller sampleReleasing 8
     (by decide) (by decide) (by decide) (by decide)
     (Or.inr (Or.inl rfl)) (Or.inr rfl) rfl,
   duplicate_signature_amended.2.2 sampleCreated
     (Reachable.created sampleCreateReq (Except.ok "addr") true 0 sampleCreated rfl)⟩

end EscrowService
